import Mathlib

/-!
Shallow embedding of `check_bonds.py` (convertible-bond reminder script).

Python dicts whose values are strings are modelled as association lists
(`Dict`), `dict.get(k, default)` as `dget`, Python substring test
(`pat in s`) as `strContains`, `str.lower()` as `pyLower` (ASCII case
folding, which agrees with Python on the ASCII keywords the script uses),
and the builtin `int(...)` applied to a string as `pyInt` (returning
`none` where CPython raises `ValueError`; modelled for ASCII decimal
literals with optional sign and surrounding whitespace).  Functions that
can raise return `Option`; network-facing code is modelled by explicit
outcome types and call traces.
-/

set_option maxHeartbeats 1000000

namespace CheckBonds

/-- String-valued JSON object, in insertion order. -/
abbrev Dict := List (String × String)

/-- Python `d.get(k, dflt)` on a string-valued dict. -/
def dget (d : Dict) (k dflt : String) : String :=
  (List.lookup k d).getD dflt

/-- One raw entry of the provider's `rows`: a mapping that may or may not
carry a nested `cell` mapping (the script reads it with `bond.get('cell', {})`). -/
structure BondRecord where
  cell : Option Dict

/-- The normalized weather snapshot built by `get_beijing_weather`
(all fields are strings, as delivered by the wttr.in JSON). -/
structure Weather where
  temp : String
  feels_like : String
  humidity : String
  weather_desc : String
  wind_speed : String
  wind_dir : String
  max_temp : String
  min_temp : String
  uv_index : String
  sunrise : String
  sunset : String

/-- Python `str.lower()` (ASCII case folding). -/
def pyLower (s : String) : String :=
  ⟨s.data.map Char.toLower⟩

/-- Tests whether the first list is a leading segment of the second. -/
def strStartsWith : List Char → List Char → Bool
  | [], _ => true
  | _ :: _, [] => false
  | p :: ps, c :: cs => p == c && strStartsWith ps cs

/-- Substring containment on character lists (Python `pat in s`). -/
def containsSub : List Char → List Char → Bool
  | [], pat => strStartsWith pat []
  | c :: cs, pat => strStartsWith pat (c :: cs) || containsSub cs pat

/-- Python substring test `pat in s`. -/
def strContains (s pat : String) : Bool :=
  containsSub s.data pat.data

/-- Embedding of `get_weather_emoji` (lines 123-141): lowercase the
description, then keyword-match in source order. -/
def get_weather_emoji (weather_desc : String) : String :=
  let d := pyLower weather_desc
  if strContains d "晴" || strContains d "sunny" || strContains d "clear" then "☀️"
  else if strContains d "云" || strContains d "cloud" then "☁️"
  else if strContains d "雨" || strContains d "rain" then "🌧️"
  else if strContains d "雪" || strContains d "snow" then "❄️"
  else if strContains d "雾" || strContains d "fog" || strContains d "mist" then "🌫️"
  else if strContains d "雷" || strContains d "thunder" then "⛈️"
  else "🌤️"

/-- Temperature advisory appended by `format_weather_section`
(lines 165-173): `if temp < 0 / elif temp < 10 / elif temp > 30 /
elif temp > 25 / else nothing`. -/
def temp_tip (temp : Int) : Option String :=
  if temp < 0 then some "🧥 **提示**: 天气寒冷，注意保暖！\n"
  else if temp < 10 then some "🧥 **提示**: 气温较低，多穿点衣服。\n"
  else if temp > 30 then some "🌊 **提示**: 天气炎热，注意防暑降温！\n"
  else if temp > 25 then some "😎 **提示**: 天气温暖舒适。\n"
  else none

/-- Strips leading and trailing whitespace (Python `str.strip()` on ASCII). -/
def pyStrip (l : List Char) : List Char :=
  ((l.dropWhile Char.isWhitespace).reverse.dropWhile Char.isWhitespace).reverse

/-- Accumulates the decimal value of a digit-only character list. -/
def digitsValAux : Nat → List Char → Option Nat
  | acc, [] => some acc
  | acc, c :: cs =>
    if c.isDigit then digitsValAux (acc * 10 + (c.toNat - 48)) cs else none

/-- Decimal value of a nonempty all-digit character list, else `none`. -/
def digitsVal : List Char → Option Nat
  | [] => none
  | l => digitsValAux 0 l

/-- Python `int(s)` on a string: optional surrounding whitespace, optional
sign, then a nonempty run of decimal digits; `none` models the
`ValueError` raised on anything else (e.g. `"5.2"`). -/
def pyInt (s : String) : Option Int :=
  match pyStrip s.data with
  | '+' :: rest => (digitsVal rest).map Int.ofNat
  | '-' :: rest => (digitsVal rest).map (fun n => -(Int.ofNat n))
  | rest => (digitsVal rest).map Int.ofNat

/-- Python `''.join(parts)`. -/
def joinParts : List String → String
  | [] => ""
  | p :: ps => p ++ joinParts ps

/-- The ActionableBond dict built for each selected record
(lines 84-91), with the source's defaulting rules. -/
def to_actionable (cell : Dict) : Dict :=
  [("name", dget cell "bond_nm" "未知"),
   ("code", dget cell "bond_id" ""),
   ("stock_name", dget cell "stock_nm" ""),
   ("stock_code", dget cell "stock_id" ""),
   ("rating", dget cell "rating_cd" "无评级"),
   ("apply_code", dget cell "apply_cd" "")]

/-- Embedding of `filter_today_bonds` (lines 72-93); `today` (the
`datetime.now().strftime('%Y-%m-%d')` value) is passed explicitly. -/
def filter_today_bonds (today : String) : List BondRecord → List Dict
  | [] => []
  | b :: bs =>
    let cell := b.cell.getD []
    let apply_date := dget cell "maturity_dt" ""
    if apply_date == today then to_actionable cell :: filter_today_bonds today bs
    else filter_today_bonds today bs

/-- Embedding of `format_weather_section` (lines 144-175).  The body list
is built first; `int(weather['temp'])` then runs unguarded, so a
non-integer temperature string raises (modelled as `none`). -/
def format_weather_section : Option Weather → Option String
  | none => some "\n## 🌤️ 今日天气\n\n⚠️ 天气信息获取失败\n\n"
  | some w =>
    let emoji := get_weather_emoji w.weather_desc
    let base : List String :=
      ["\n## " ++ emoji ++ " 北京天气\n\n",
       "**" ++ w.weather_desc ++ "** | 🌡️ " ++ w.temp ++ "°C（体感 " ++ w.feels_like ++ "°C）\n\n",
       "- 🌡️ **温度范围**: " ++ w.min_temp ++ "°C ~ " ++ w.max_temp ++ "°C\n",
       "- 💧 **湿度**: " ++ w.humidity ++ "%\n",
       "- 🌬️ **风力**: " ++ w.wind_dir ++ " " ++ w.wind_speed ++ " km/h\n",
       "- ☀️ **紫外线指数**: " ++ w.uv_index ++ "\n",
       "- 🌅 **日出时间**: " ++ w.sunrise ++ "\n",
       "- 🌇 **日落时间**: " ++ w.sunset ++ "\n\n"]
    (pyInt w.temp).map (fun t =>
      match temp_tip t with
      | none => joinParts base
      | some tip => joinParts (base ++ [tip]))

/-- Numbered per-bond blocks from `enumerate(bonds, 1)` (lines 201-206). -/
def bond_blocks : Nat → List Dict → List String
  | _, [] => []
  | i, b :: bs =>
    ("### " ++ Nat.repr i ++ ". " ++ dget b "name" "" ++ " (" ++ dget b "code" "" ++ ")\n")
    :: ("- **申购代码**: `" ++ dget b "apply_code" "" ++ "`\n")
    :: ("- **正股**: " ++ dget b "stock_name" "" ++ " (" ++ dget b "stock_code" "" ++ ")\n")
    :: ("- **评级**: " ++ dget b "rating" "" ++ "\n")
    :: "\n"
    :: bond_blocks (i + 1) bs

/-- Bond section of the message body (lines 198-217). -/
def bond_section (bonds : List Dict) : List String :=
  if bonds.isEmpty then
    ["## 💰 可转债申购\n\n",
     "今天没有新的可转债可以申购。\n\n",
     "💤 可以安心做其他事情啦！\n"]
  else
    "## 💰 可转债申购清单\n\n"
    :: (bond_blocks 1 bonds
        ++ ["---\n\n",
            "💡 **申购提示**：\n",
            "1. 开盘时间即可申购（9:30-15:00）\n",
            "2. 无需市值，中签后再缴款\n",
            "3. 建议顶格申购（通常1万张）\n",
            "\n🔗 [查看详情](https://www.jisilu.cn/data/cbnew/)\n"])

/-- Date header of the body (line 190); the file's literal contains two
U+FFFD replacement characters before 报. -/
def date_header (today_str : String) : String :=
  "# " ++ today_str ++ " ��报\n\n"

/-- Embedding of `format_message` (lines 178-222).  The
`datetime.now().strftime('%Y年%m月%d日')` value is passed explicitly as
`today_str`; a `none` result models the exception escaping from
`format_weather_section`. -/
def format_message (bonds : List Dict) (weather : Option Weather)
    (today_str : String) : Option (String × String) :=
  let title :=
    if bonds.isEmpty then "☀️ 早安！今日无可转债申购"
    else "🔔 今日有 " ++ Nat.repr bonds.length ++ " 只可转债可申购！"
  (format_weather_section weather).map (fun ws =>
    (title,
      date_header today_str
        ++ joinParts (ws :: "---\n\n" :: bond_section bonds
             ++ ["\n---\n", "\n🤖 *自动推送 by GitHub Actions*"])))

/-- Outcome of the HTTP fetch inside `get_convertible_bonds`:
a transport error, a non-2xx status (raised by `raise_for_status`),
a body that is not JSON, or a JSON body whose `rows` key is missing
(`none`) or present. -/
inductive BondFetchOutcome where
  | netError
  | httpError (status : Nat)
  | badJson
  | ok (rows : Option (List BondRecord))

/-- Embedding of `get_convertible_bonds` (lines 14-35) as a function of
the fetch outcome: every failure is caught and becomes `[]`; on success
`data.get('rows')` is truthiness-tested (an empty `rows` list is falsy),
then `data['rows']` is returned unchanged. -/
def get_convertible_bonds : BondFetchOutcome → List BondRecord
  | .netError => []
  | .httpError _ => []
  | .badJson => []
  | .ok none => []
  | .ok (some rows) => if rows.isEmpty then [] else rows

/-- Externally visible effects of `main` that the spec's abort property
talks about: the missing-configuration report and the three network
calls. -/
inductive MainEffect where
  | logMissingKey
  | weatherFetch
  | bondFetch
  | notifySend
deriving DecidableEq

/-- Effect trace of `main` (lines 225-269) as a function of the
`SERVERCHAN_KEY` environment value, the weather fetch result, the bond
fetch outcome and the two clock strings: `if not serverchan_key` (unset
or empty, both falsy) reports the missing configuration and returns
before any network call; otherwise the weather fetch and the bond fetch
run, and the notification delivery runs only if `format_message` returns
normally — when it raises (unguarded `int` on the temperature, line 262)
the exception escapes `main` before `send_serverchan_notification`. -/
def main_effects (serverchan_key : Option String) (weather : Option Weather)
    (bondsOutcome : BondFetchOutcome) (today today_cn : String) : List MainEffect :=
  match serverchan_key with
  | none => [.logMissingKey]
  | some k =>
    if k = "" then [.logMissingKey]
    else
      let today_bonds := filter_today_bonds today (get_convertible_bonds bondsOutcome)
      match format_message today_bonds weather today_cn with
      | none => [.weatherFetch, .bondFetch]
      | some _ => [.weatherFetch, .bondFetch, .notifySend]

/-- A string in `YYYY-MM-DD` form: ten characters, digits in the date
positions and dashes at indices 4 and 7. -/
def isDateFormat (s : String) : Bool :=
  match s.data with
  | [y1, y2, y3, y4, h1, m1, m2, h2, d1, d2] =>
    y1.isDigit && y2.isDigit && y3.isDigit && y4.isDigit &&
    h1 == '-' && m1.isDigit && m2.isDigit && h2 == '-' && d1.isDigit && d2.isDigit
  | _ => false

/-- Concrete cell dated 2024-03-15, for evaluating the pipeline. -/
def demoCellA : Dict :=
  [("bond_nm", "测试转债"), ("bond_id", "113001"), ("stock_nm", "测试股份"),
   ("stock_id", "600001"), ("rating_cd", "AA+"), ("apply_cd", "754001"),
   ("maturity_dt", "2024-03-15")]

/-- Concrete cell dated 2024-03-16, for evaluating the pipeline. -/
def demoCellB : Dict :=
  [("bond_nm", "样例转债"), ("bond_id", "113002"), ("maturity_dt", "2024-03-16")]

/-- Two concrete records, dated 2024-03-15 and 2024-03-16. -/
def demoBonds : List BondRecord :=
  [⟨some demoCellA⟩, ⟨some demoCellB⟩]

/-- A weather snapshot whose temperature string is not an integer
literal, so `int(weather['temp'])` raises. -/
def badWeather : Weather :=
  ⟨"5.2", "4", "50", "小雨", "10", "N", "8", "2", "3", "06:30", "18:30"⟩

/-- The same snapshot with an integer temperature string. -/
def okWeather : Weather :=
  { badWeather with temp := "5" }

/-! Helper lemmas about the substring test and the date-format predicate. -/

/-- Every list starts with itself, whatever follows. -/
theorem strStartsWith_self_append (m q : List Char) : strStartsWith m (m ++ q) = true := by
  induction m with
  | nil => rfl
  | cons c cs ih => simp [strStartsWith, ih]

/-- A list starting with the pattern contains it. -/
theorem containsSub_of_starts {l pat : List Char} (h : strStartsWith pat l = true) :
    containsSub l pat = true := by
  cases l with
  | nil => exact h
  | cons c cs => simp [containsSub, h]

/-- Containment is preserved by prepending. -/
theorem containsSub_append_left {r pat : List Char} (p : List Char)
    (h : containsSub r pat = true) : containsSub (p ++ r) pat = true := by
  induction p with
  | nil => exact h
  | cons c cs ih => simp [containsSub, ih]

/-- A concatenation contains its middle part. -/
theorem strContains_append_mid (a m b : String) : strContains (a ++ m ++ b) m = true := by
  unfold strContains
  rw [String.data_append, String.data_append, List.append_assoc]
  exact containsSub_append_left _ (containsSub_of_starts (strStartsWith_self_append m.data b.data))

/-- A string in `YYYY-MM-DD` form is not empty. -/
theorem dateFormat_ne_empty {s : String} (h : isDateFormat s = true) : s ≠ "" := by
  intro he
  subst he
  exact absurd h (by decide)

/-- The filter never grows the list. -/
theorem filter_len (today : String) (bonds : List BondRecord) :
    (filter_today_bonds today bonds).length ≤ bonds.length := by
  induction bonds with
  | nil => exact Nat.le_refl 0
  | cons b bs ih =>
    simp only [filter_today_bonds]
    by_cases h : (dget (b.cell.getD []) "maturity_dt" "" == today) = true
    · simp only [h, if_true, List.length_cons]
      omega
    · rw [Bool.not_eq_true] at h
      simp only [h, List.length_cons]
      simp
      omega

/-- Every dict the filter emits carries exactly the six ActionableBond keys. -/
theorem filter_keys (today : String) (bonds : List BondRecord) :
    ∀ a ∈ filter_today_bonds today bonds,
      a.map Prod.fst = ["name", "code", "stock_name", "stock_code", "rating", "apply_code"] := by
  induction bonds with
  | nil => intro a ha; cases ha
  | cons b bs ih =>
    intro a ha
    simp only [filter_today_bonds] at ha
    by_cases h : (dget (b.cell.getD []) "maturity_dt" "" == today) = true
    · rw [if_pos h] at ha
      rw [List.mem_cons] at ha
      rcases ha with rfl | ha
      · rfl
      · exact ih a ha
    · rw [Bool.not_eq_true] at h
      rw [h] at ha
      simp at ha
      exact ih a ha

/-! Claim theorems. -/

/-- Claim C1: for every bond list and every `YYYY-MM-DD` today string, the
filter selects exactly the records whose `maturity_dt` cell field equals
today (mapping each through `to_actionable`, in order), and a record
missing the date field yields the defaulted empty string, which never
satisfies the selection test against a well-formed date string. -/
theorem filter_today_bonds_spec (today : String) (bonds : List BondRecord)
    (hfmt : isDateFormat today = true) :
    filter_today_bonds today bonds
      = (bonds.filter fun b => dget (b.cell.getD []) "maturity_dt" "" == today).map
          (fun b => to_actionable (b.cell.getD []))
    ∧ ∀ b : BondRecord, List.lookup "maturity_dt" (b.cell.getD []) = none →
        (dget (b.cell.getD []) "maturity_dt" "" == today) = false := by
  constructor
  · induction bonds with
    | nil => rfl
    | cons b bs ih =>
      simp only [filter_today_bonds, List.filter_cons]
      by_cases h : (dget (b.cell.getD []) "maturity_dt" "" == today) = true
      · simp [h, ih]
      · rw [Bool.not_eq_true] at h
        simp [h, ih]
  · intro b hnone
    have hne : today ≠ "" := dateFormat_ne_empty hfmt
    have hd : dget (b.cell.getD []) "maturity_dt" "" = "" := by
      simp [dget, hnone]
    rw [hd]
    exact beq_eq_false_iff_ne.mpr (fun e => hne e.symm)

/-- Witness for C1 at the spec's own example: today `2024-03-15` with two
records dated `2024-03-15` and `2024-03-16`; exactly the first is
selected. -/
theorem filter_today_bonds_spec_witness :
    filter_today_bonds "2024-03-15" demoBonds
      = (demoBonds.filter fun b => dget (b.cell.getD []) "maturity_dt" "" == "2024-03-15").map
          (fun b => to_actionable (b.cell.getD []))
    ∧ filter_today_bonds "2024-03-15" demoBonds = [to_actionable demoCellA] :=
  ⟨(filter_today_bonds_spec "2024-03-15" demoBonds (by decide)).1, by decide⟩

/-- Claim C2 counterexample: a description containing both `rain` and
`cloud` maps to the cloud emoji, not the rain emoji, because the code
checks the cloud keywords before the rain keywords. -/
theorem get_weather_emoji_priority_counterexample :
    strContains (pyLower "rain cloud") "rain" = true
    ∧ strContains (pyLower "rain cloud") "cloud" = true
    ∧ get_weather_emoji "rain cloud" = "☁️"
    ∧ get_weather_emoji "rain cloud" ≠ "🌧️" :=
  ⟨by decide, by decide, by decide, by decide⟩

/-- Claim C2 (amended): emoji selection is case-insensitive (it depends
only on the lowercased description) and keyword-priority ordered with
cloud checked before rain: a description containing both `rain` and
`cloud` (and no sun keyword) maps to the cloud emoji, and a description
matching no keyword maps to the generic partly-cloudy emoji. -/
theorem get_weather_emoji_spec :
    (∀ s₁ s₂ : String, pyLower s₁ = pyLower s₂ → get_weather_emoji s₁ = get_weather_emoji s₂)
    ∧ (∀ s : String,
        strContains (pyLower s) "rain" = true →
        strContains (pyLower s) "cloud" = true →
        strContains (pyLower s) "晴" = false →
        strContains (pyLower s) "sunny" = false →
        strContains (pyLower s) "clear" = false →
        get_weather_emoji s = "☁️")
    ∧ (∀ s : String,
        strContains (pyLower s) "晴" = false → strContains (pyLower s) "sunny" = false →
        strContains (pyLower s) "clear" = false → strContains (pyLower s) "云" = false →
        strContains (pyLower s) "cloud" = false → strContains (pyLower s) "雨" = false →
        strContains (pyLower s) "rain" = false → strContains (pyLower s) "雪" = false →
        strContains (pyLower s) "snow" = false → strContains (pyLower s) "雾" = false →
        strContains (pyLower s) "fog" = false → strContains (pyLower s) "mist" = false →
        strContains (pyLower s) "雷" = false → strContains (pyLower s) "thunder" = false →
        get_weather_emoji s = "🌤️") := by
  refine ⟨fun s₁ s₂ h => ?_, fun s h1 h2 h3 h4 h5 => ?_,
    fun s a1 a2 a3 a4 a5 a6 a7 a8 a9 a10 a11 a12 a13 a14 => ?_⟩
  · unfold get_weather_emoji
    rw [h]
  · simp [get_weather_emoji, h1, h2, h3, h4, h5]
  · simp [get_weather_emoji, a1, a2, a3, a4, a5, a6, a7, a8, a9, a10, a11, a12, a13, a14]

/-- Witness for C2 (amended) at the mixed-case input `Rain Cloud`. -/
theorem get_weather_emoji_spec_witness :
    get_weather_emoji "Rain Cloud" = "☁️" :=
  get_weather_emoji_spec.2.1 "Rain Cloud" (by decide) (by decide) (by decide) (by decide) (by decide)

/-- Claim C3: the ActionableBond dict carries `name`, `code`,
`stock_name`, `stock_code`, `rating`, `apply_code` taken from the cell
mapping (`bond_nm`, `bond_id`, `stock_nm`, `stock_id`, `rating_cd`,
`apply_cd`), and each field falls back to its placeholder when the source
key is absent. -/
theorem to_actionable_fields (cell : Dict) :
    ((∀ v, List.lookup "bond_nm" cell = some v → List.lookup "name" (to_actionable cell) = some v)
      ∧ (List.lookup "bond_nm" cell = none → List.lookup "name" (to_actionable cell) = some "未知"))
    ∧ ((∀ v, List.lookup "bond_id" cell = some v → List.lookup "code" (to_actionable cell) = some v)
      ∧ (List.lookup "bond_id" cell = none → List.lookup "code" (to_actionable cell) = some ""))
    ∧ ((∀ v, List.lookup "stock_nm" cell = some v → List.lookup "stock_name" (to_actionable cell) = some v)
      ∧ (List.lookup "stock_nm" cell = none → List.lookup "stock_name" (to_actionable cell) = some ""))
    ∧ ((∀ v, List.lookup "stock_id" cell = some v → List.lookup "stock_code" (to_actionable cell) = some v)
      ∧ (List.lookup "stock_id" cell = none → List.lookup "stock_code" (to_actionable cell) = some ""))
    ∧ ((∀ v, List.lookup "rating_cd" cell = some v → List.lookup "rating" (to_actionable cell) = some v)
      ∧ (List.lookup "rating_cd" cell = none → List.lookup "rating" (to_actionable cell) = some "无评级"))
    ∧ ((∀ v, List.lookup "apply_cd" cell = some v → List.lookup "apply_code" (to_actionable cell) = some v)
      ∧ (List.lookup "apply_cd" cell = none → List.lookup "apply_code" (to_actionable cell) = some "")) := by
  refine ⟨⟨fun v h => ?_, fun h => ?_⟩, ⟨fun v h => ?_, fun h => ?_⟩, ⟨fun v h => ?_, fun h => ?_⟩,
    ⟨fun v h => ?_, fun h => ?_⟩, ⟨fun v h => ?_, fun h => ?_⟩, ⟨fun v h => ?_, fun h => ?_⟩⟩
  · simp [show List.lookup "name" (to_actionable cell) = some (dget cell "bond_nm" "未知") from rfl, dget, h]
  · simp [show List.lookup "name" (to_actionable cell) = some (dget cell "bond_nm" "未知") from rfl, dget, h]
  · simp [show List.lookup "code" (to_actionable cell) = some (dget cell "bond_id" "") from rfl, dget, h]
  · simp [show List.lookup "code" (to_actionable cell) = some (dget cell "bond_id" "") from rfl, dget, h]
  · simp [show List.lookup "stock_name" (to_actionable cell) = some (dget cell "stock_nm" "") from rfl, dget, h]
  · simp [show List.lookup "stock_name" (to_actionable cell) = some (dget cell "stock_nm" "") from rfl, dget, h]
  · simp [show List.lookup "stock_code" (to_actionable cell) = some (dget cell "stock_id" "") from rfl, dget, h]
  · simp [show List.lookup "stock_code" (to_actionable cell) = some (dget cell "stock_id" "") from rfl, dget, h]
  · simp [show List.lookup "rating" (to_actionable cell) = some (dget cell "rating_cd" "无评级") from rfl, dget, h]
  · simp [show List.lookup "rating" (to_actionable cell) = some (dget cell "rating_cd" "无评级") from rfl, dget, h]
  · simp [show List.lookup "apply_code" (to_actionable cell) = some (dget cell "apply_cd" "") from rfl, dget, h]
  · simp [show List.lookup "apply_code" (to_actionable cell) = some (dget cell "apply_cd" "") from rfl, dget, h]

/-- Witness for C3: a present key is copied, an absent key gets its
placeholder. -/
theorem to_actionable_fields_witness :
    List.lookup "name" (to_actionable [("bond_nm", "测试转债")]) = some "测试转债"
    ∧ List.lookup "rating" (to_actionable [("bond_nm", "测试转债")]) = some "无评级" :=
  ⟨(to_actionable_fields [("bond_nm", "测试转债")]).1.1 "测试转债" (by decide),
   (to_actionable_fields [("bond_nm", "测试转债")]).2.2.2.2.1.2 (by decide)⟩

/-- Claim C4: the temperature advisory uses strict thresholds in the
source's branch order: below 0 the cold warning, otherwise below 10 the
mild-cold advisory, otherwise above 30 the heat warning, otherwise above
25 the warm-comfort note, otherwise no advisory; in particular 0 falls to
the mild-cold branch, 25 produces no advisory, and 30 falls to the
warm-comfort branch rather than the heat warning. -/
theorem temp_tip_thresholds :
    (∀ t : Int, t < 0 → temp_tip t = some "🧥 **提示**: 天气寒冷，注意保暖！\n")
    ∧ (∀ t : Int, 0 ≤ t → t < 10 → temp_tip t = some "🧥 **提示**: 气温较低，多穿点衣服。\n")
    ∧ (∀ t : Int, 30 < t → temp_tip t = some "🌊 **提示**: 天气炎热，注意防暑降温！\n")
    ∧ (∀ t : Int, 25 < t → t ≤ 30 → temp_tip t = some "😎 **提示**: 天气温暖舒适。\n")
    ∧ (∀ t : Int, 10 ≤ t → t ≤ 25 → temp_tip t = none)
    ∧ temp_tip 0 = some "🧥 **提示**: 气温较低，多穿点衣服。\n"
    ∧ temp_tip 25 = none
    ∧ temp_tip 30 = some "😎 **提示**: 天气温暖舒适。\n" := by
  refine ⟨fun t h => ?_, fun t h0 h10 => ?_, fun t h => ?_, fun t h25 h30 => ?_,
    fun t h10 h25 => ?_, by decide, by decide, by decide⟩
  · unfold temp_tip; rw [if_pos h]
  · unfold temp_tip; rw [if_neg (by omega), if_pos h10]
  · unfold temp_tip; rw [if_neg (by omega), if_neg (by omega), if_pos h]
  · unfold temp_tip; rw [if_neg (by omega), if_neg (by omega), if_neg (by omega), if_pos h25]
  · unfold temp_tip; rw [if_neg (by omega), if_neg (by omega), if_neg (by omega), if_neg (by omega)]

/-- Witness for C4 at one temperature inside each band. -/
theorem temp_tip_thresholds_witness :
    temp_tip (-1) = some "🧥 **提示**: 天气寒冷，注意保暖！\n"
    ∧ temp_tip 5 = some "🧥 **提示**: 气温较低，多穿点衣服。\n"
    ∧ temp_tip 31 = some "🌊 **提示**: 天气炎热，注意防暑降温！\n"
    ∧ temp_tip 26 = some "😎 **提示**: 天气温暖舒适。\n"
    ∧ temp_tip 15 = none :=
  ⟨temp_tip_thresholds.1 (-1) (by decide),
   temp_tip_thresholds.2.1 5 (by decide) (by decide),
   temp_tip_thresholds.2.2.1 31 (by decide),
   temp_tip_thresholds.2.2.2.1 26 (by decide) (by decide),
   temp_tip_thresholds.2.2.2.2.1 15 (by decide) (by decide)⟩

/-- Claim C5: when the message renders, an empty bond list yields the
no-bonds greeting title, which contains no digit at all (so no nonzero
count), and a nonempty list of N bonds yields a title containing the
literal decimal N. -/
theorem format_message_title (bonds : List Dict) (weather : Option Weather)
    (d : String) (p : String × String)
    (h : format_message bonds weather d = some p) :
    (bonds = [] →
       p.1 = "☀️ 早安！今日无可转债申购"
       ∧ (p.1.data.all fun c => !c.isDigit) = true)
    ∧ (bonds ≠ [] → strContains p.1 (Nat.repr bonds.length) = true) := by
  unfold format_message at h
  cases hw : format_weather_section weather with
  | none => rw [hw] at h; simp at h
  | some ws =>
    rw [hw] at h
    simp only [Option.map_some'] at h
    rw [Option.some_inj] at h
    subst h
    refine ⟨fun hb => ?_, fun hb => ?_⟩
    · subst hb
      refine ⟨rfl, ?_⟩
      show (("☀️ 早安！今日无可转债申购" : String).data.all fun c => !c.isDigit) = true
      decide
    · have hne : bonds.isEmpty = false := by simp [List.isEmpty_iff, hb]
      show strContains (if bonds.isEmpty then _ else _) _ = true
      rw [hne]
      simp only [Bool.false_eq_true, if_false]
      exact strContains_append_mid _ _ _

/-- Witness for C5 with one actionable bond: the rendered title contains
the digit 1. -/
theorem format_message_title_witness :
    strContains ((format_message [to_actionable demoCellA] none "2024年03月15日").getD ("", "")).1
      (Nat.repr 1) = true :=
  (format_message_title [to_actionable demoCellA] none "2024年03月15日"
      ((format_message [to_actionable demoCellA] none "2024年03月15日").getD ("", ""))
      (by rfl)).2 (List.cons_ne_nil _ _)

/-- Claim C6: with the `SERVERCHAN_KEY` environment variable unset, the
run reports the missing configuration and performs no network call at
all — no weather fetch, no bond fetch, no notification delivery —
whatever the provider outcomes would have been; with a nonempty key
present, the weather and bond fetches run, and delivery follows exactly
when the render returns normally (when the render raises, the run
crashes after the two fetches without delivering). -/
theorem main_effects_missing_key :
    (∀ (w : Option Weather) (bo : BondFetchOutcome) (td tc : String),
        main_effects none w bo td tc = [.logMissingKey])
    ∧ (∀ (w : Option Weather) (bo : BondFetchOutcome) (td tc : String),
        MainEffect.weatherFetch ∉ main_effects none w bo td tc
        ∧ MainEffect.bondFetch ∉ main_effects none w bo td tc
        ∧ MainEffect.notifySend ∉ main_effects none w bo td tc)
    ∧ (∀ k : String, k ≠ "" →
        ∀ (w : Option Weather) (bo : BondFetchOutcome) (td tc : String) (p : String × String),
        format_message (filter_today_bonds td (get_convertible_bonds bo)) w tc = some p →
        main_effects (some k) w bo td tc = [.weatherFetch, .bondFetch, .notifySend])
    ∧ (∀ k : String, k ≠ "" →
        ∀ (w : Option Weather) (bo : BondFetchOutcome) (td tc : String),
        format_message (filter_today_bonds td (get_convertible_bonds bo)) w tc = none →
        main_effects (some k) w bo td tc = [.weatherFetch, .bondFetch]) := by
  refine ⟨fun w bo td tc => rfl, fun w bo td tc => ?_,
    fun k hk w bo td tc p hfm => ?_, fun k hk w bo td tc hfm => ?_⟩
  · rw [show main_effects none w bo td tc = [.logMissingKey] from rfl]
    exact ⟨by decide, by decide, by decide⟩
  · simp [main_effects, hk, hfm]
  · simp [main_effects, hk, hfm]

/-- Witness for C6: a concrete nonempty key with an empty bond payload
and absent weather, where the render succeeds, produces all three calls;
the corresponding missing-key trace is the report alone. -/
theorem main_effects_missing_key_witness :
    main_effects none none (.ok none) "2024-03-15" "2024年03月15日" = [.logMissingKey]
    ∧ main_effects (some "SCT123") none (.ok none) "2024-03-15" "2024年03月15日"
        = [.weatherFetch, .bondFetch, .notifySend] :=
  ⟨main_effects_missing_key.1 none (.ok none) "2024-03-15" "2024年03月15日",
   main_effects_missing_key.2.2.1 "SCT123" (by decide) none (.ok none)
     "2024-03-15" "2024年03月15日"
     ((format_message [] none "2024年03月15日").getD ("", "")) (by rfl)⟩

/-- Claim C7: the bond fetch returns the provider's `rows` unchanged when
the fetch succeeds and the key is present, and returns the empty list on
a network error, a non-2xx status, malformed JSON, or a missing `rows`
key; being a total function of the outcome, no failure escapes to the
caller. -/
theorem get_convertible_bonds_spec :
    (∀ rows : List BondRecord, get_convertible_bonds (.ok (some rows)) = rows)
    ∧ get_convertible_bonds (.ok none) = []
    ∧ get_convertible_bonds .netError = []
    ∧ (∀ s, get_convertible_bonds (.httpError s) = [])
    ∧ get_convertible_bonds .badJson = [] := by
  refine ⟨fun rows => ?_, rfl, rfl, fun s => rfl, rfl⟩
  cases rows <;> rfl

/-- Claim C8: rendering is deterministic in (bonds, weather); two renders
share the title byte for byte, and their bodies agree byte for byte
except for the embedded current-date header line. -/
theorem format_message_deterministic (bonds : List Dict) (weather : Option Weather)
    (d₁ d₂ : String) (p₁ p₂ : String × String)
    (h₁ : format_message bonds weather d₁ = some p₁)
    (h₂ : format_message bonds weather d₂ = some p₂) :
    p₁.1 = p₂.1
    ∧ ∃ rest, p₁.2 = date_header d₁ ++ rest ∧ p₂.2 = date_header d₂ ++ rest := by
  unfold format_message at h₁ h₂
  cases hw : format_weather_section weather with
  | none => rw [hw] at h₁; simp at h₁
  | some ws =>
    rw [hw] at h₁ h₂
    simp only [Option.map_some'] at h₁ h₂
    rw [Option.some_inj] at h₁
    rw [Option.some_inj] at h₂
    subst h₁
    subst h₂
    exact ⟨rfl, joinParts (ws :: "---\n\n" :: bond_section bonds
      ++ ["\n---\n", "\n🤖 *自动推送 by GitHub Actions*"]), rfl, rfl⟩

/-- Witness for C8: two renders of the same (bonds, weather) on different
dates share their title. -/
theorem format_message_deterministic_witness :
    ((format_message [] none "2024年03月15日").getD ("", "")).1
      = ((format_message [] none "2024年03月16日").getD ("", "")).1 :=
  (format_message_deterministic [] none "2024年03月15日" "2024年03月16日"
      ((format_message [] none "2024年03月15日").getD ("", ""))
      ((format_message [] none "2024年03月16日").getD ("", ""))
      (by rfl) (by rfl)).1

/-- Claim C9: the weather section applies an unguarded integer conversion
to the temperature string: a snapshot whose temperature is `5.2` makes
`format_weather_section`, and hence the whole digest render, raise
(modelled as `none`), while any snapshot whose temperature parses as an
integer always renders a section. -/
theorem format_weather_section_temp_total :
    (pyInt badWeather.temp = none
      ∧ format_weather_section (some badWeather) = none
      ∧ ∀ (bonds : List Dict) (d : String), format_message bonds (some badWeather) d = none)
    ∧ (∀ (w : Weather) (t : Int), pyInt w.temp = some t →
        ∃ s, format_weather_section (some w) = some s) := by
  refine ⟨⟨by decide, by rfl, fun bonds d => ?_⟩, fun w t h => ?_⟩
  · unfold format_message
    rw [show format_weather_section (some badWeather) = none from rfl]
    rfl
  · simp only [format_weather_section]
    rw [h]
    simp only [Option.map_some']
    exact ⟨_, rfl⟩

/-- Witness for C9: the integer-temperature snapshot renders a section. -/
theorem format_weather_section_temp_total_witness :
    (format_weather_section (some okWeather)).isSome = true := by
  obtain ⟨s, hs⟩ := format_weather_section_temp_total.2 okWeather 5 (by decide)
  rw [hs]
  rfl

/-- Claim C10: shape invariant of the filter: the output is never longer
than the input, and every output dict has exactly the six keys `name`,
`code`, `stock_name`, `stock_code`, `rating`, `apply_code` in order, each
bound to a string. -/
theorem filter_today_bonds_shape (today : String) (bonds : List BondRecord) :
    (filter_today_bonds today bonds).length ≤ bonds.length
    ∧ ∀ a ∈ filter_today_bonds today bonds,
        a.map Prod.fst = ["name", "code", "stock_name", "stock_code", "rating", "apply_code"] :=
  ⟨filter_len today bonds, filter_keys today bonds⟩

/-- Witness for C10 on the two demo records. -/
theorem filter_today_bonds_shape_witness :
    (filter_today_bonds "2024-03-15" demoBonds).length ≤ 2
    ∧ (to_actionable demoCellA).map Prod.fst
        = ["name", "code", "stock_name", "stock_code", "rating", "apply_code"] :=
  ⟨(filter_today_bonds_shape "2024-03-15" demoBonds).1,
   (filter_today_bonds_shape "2024-03-15" demoBonds).2 (to_actionable demoCellA) (by decide)⟩

end CheckBonds
